import Mathlib

/-!
Verification development for `scripts/compare-benchmarks.py` of kcenon/osx_cleaner.

Shallow embedding conventions:
* Python floats are modelled as exact rationals (`ℚ`); the script only ever
  performs field arithmetic and comparisons on them.
* A parsed JSON document (the result of `json.load`) is modelled by the
  inductive `JSON` below; objects are association lists with unique keys
  (as produced by `json.load`, where a duplicate key keeps the last value).
* Python dicts built by the script are association lists
  `List (String × _)`; `d[k] = v` is the order-preserving upsert `insertPy`,
  `k in d` / `d.get k` is `List.lookup`.
* Exceptions that the script can raise and does not catch are modelled by
  `Except PyError`; the two exception classes that the script catches
  (`json.JSONDecodeError`, `FileNotFoundError`) are modelled as constructors
  of the `FileRead` input type, since catching them is decided right at the
  read site.
* File-system reads are inputs: `FileRead` stands for the combined outcome of
  `open` + `json.load` on one path.
* `float(x)` on a string is modelled for the plain decimal forms
  (optional sign, digits, at most one decimal point, surrounding whitespace);
  exponents, `inf`/`nan` and digit underscores are outside the rational model.
-/

namespace CompareBenchmarks

/-- Model of a parsed JSON value as produced by `json.load`. -/
inductive JSON where
  | null : JSON
  | bool (b : Bool) : JSON
  | num (q : ℚ) : JSON
  | str (s : String) : JSON
  | arr (xs : List JSON) : JSON
  | obj (kvs : List (String × JSON)) : JSON

/-- Decidable equality on rationals, named so that it stays visible inside the
mutual block below. -/
def decEqQ : (a b : ℚ) → Decidable (a = b) := fun _ _ => inferInstance

mutual

/-- Decidable equality on JSON values (hand-rolled: `deriving` does not handle
the nested inductive). -/
def JSON.decEq : (a b : JSON) → Decidable (a = b)
  | JSON.null, JSON.null => isTrue rfl
  | JSON.null, JSON.bool _ => isFalse (fun h => JSON.noConfusion h)
  | JSON.null, JSON.num _ => isFalse (fun h => JSON.noConfusion h)
  | JSON.null, JSON.str _ => isFalse (fun h => JSON.noConfusion h)
  | JSON.null, JSON.arr _ => isFalse (fun h => JSON.noConfusion h)
  | JSON.null, JSON.obj _ => isFalse (fun h => JSON.noConfusion h)
  | JSON.bool _, JSON.null => isFalse (fun h => JSON.noConfusion h)
  | JSON.bool a, JSON.bool b =>
    match Bool.decEq a b with
    | isTrue h => isTrue (by rw [h])
    | isFalse h => isFalse (fun e => by cases e; exact h rfl)
  | JSON.bool _, JSON.num _ => isFalse (fun h => JSON.noConfusion h)
  | JSON.bool _, JSON.str _ => isFalse (fun h => JSON.noConfusion h)
  | JSON.bool _, JSON.arr _ => isFalse (fun h => JSON.noConfusion h)
  | JSON.bool _, JSON.obj _ => isFalse (fun h => JSON.noConfusion h)
  | JSON.num _, JSON.null => isFalse (fun h => JSON.noConfusion h)
  | JSON.num _, JSON.bool _ => isFalse (fun h => JSON.noConfusion h)
  | JSON.num a, JSON.num b =>
    match decEqQ a b with
    | isTrue h => isTrue (by rw [h])
    | isFalse h => isFalse (fun e => by cases e; exact h rfl)
  | JSON.num _, JSON.str _ => isFalse (fun h => JSON.noConfusion h)
  | JSON.num _, JSON.arr _ => isFalse (fun h => JSON.noConfusion h)
  | JSON.num _, JSON.obj _ => isFalse (fun h => JSON.noConfusion h)
  | JSON.str _, JSON.null => isFalse (fun h => JSON.noConfusion h)
  | JSON.str _, JSON.bool _ => isFalse (fun h => JSON.noConfusion h)
  | JSON.str _, JSON.num _ => isFalse (fun h => JSON.noConfusion h)
  | JSON.str a, JSON.str b =>
    match String.decEq a b with
    | isTrue h => isTrue (by rw [h])
    | isFalse h => isFalse (fun e => by cases e; exact h rfl)
  | JSON.str _, JSON.arr _ => isFalse (fun h => JSON.noConfusion h)
  | JSON.str _, JSON.obj _ => isFalse (fun h => JSON.noConfusion h)
  | JSON.arr _, JSON.null => isFalse (fun h => JSON.noConfusion h)
  | JSON.arr _, JSON.bool _ => isFalse (fun h => JSON.noConfusion h)
  | JSON.arr _, JSON.num _ => isFalse (fun h => JSON.noConfusion h)
  | JSON.arr _, JSON.str _ => isFalse (fun h => JSON.noConfusion h)
  | JSON.arr xs, JSON.arr ys =>
    match JSON.decEqL xs ys with
    | isTrue h => isTrue (by rw [h])
    | isFalse h => isFalse (fun e => by cases e; exact h rfl)
  | JSON.arr _, JSON.obj _ => isFalse (fun h => JSON.noConfusion h)
  | JSON.obj _, JSON.null => isFalse (fun h => JSON.noConfusion h)
  | JSON.obj _, JSON.bool _ => isFalse (fun h => JSON.noConfusion h)
  | JSON.obj _, JSON.num _ => isFalse (fun h => JSON.noConfusion h)
  | JSON.obj _, JSON.str _ => isFalse (fun h => JSON.noConfusion h)
  | JSON.obj _, JSON.arr _ => isFalse (fun h => JSON.noConfusion h)
  | JSON.obj xs, JSON.obj ys =>
    match JSON.decEqO xs ys with
    | isTrue h => isTrue (by rw [h])
    | isFalse h => isFalse (fun e => by cases e; exact h rfl)

/-- Decidable equality on JSON arrays. -/
def JSON.decEqL : (as bs : List JSON) → Decidable (as = bs)
  | [], [] => isTrue rfl
  | [], _ :: _ => isFalse (fun h => List.noConfusion h)
  | _ :: _, [] => isFalse (fun h => List.noConfusion h)
  | a :: as, b :: bs =>
    match JSON.decEq a b, JSON.decEqL as bs with
    | isTrue h1, isTrue h2 => isTrue (by rw [h1, h2])
    | isFalse h1, _ => isFalse (fun e => by cases e; exact h1 rfl)
    | _, isFalse h2 => isFalse (fun e => by cases e; exact h2 rfl)

/-- Decidable equality on JSON object entry lists. -/
def JSON.decEqO : (as bs : List (String × JSON)) → Decidable (as = bs)
  | [], [] => isTrue rfl
  | [], _ :: _ => isFalse (fun h => List.noConfusion h)
  | _ :: _, [] => isFalse (fun h => List.noConfusion h)
  | (k, v) :: as, (k2, v2) :: bs =>
    match String.decEq k k2, JSON.decEq v v2, JSON.decEqO as bs with
    | isTrue h1, isTrue h2, isTrue h3 => isTrue (by rw [h1, h2, h3])
    | isFalse h1, _, _ => isFalse (fun e => by cases e; exact h1 rfl)
    | _, isFalse h2, _ => isFalse (fun e => by cases e; exact h2 rfl)
    | _, _, isFalse h3 => isFalse (fun e => by cases e; exact h3 rfl)

end

instance : DecidableEq JSON := JSON.decEq

/-- Uncaught Python exception classes that the script can raise. -/
inductive PyError where
  | attributeError : PyError
  | typeError : PyError
  | valueError : PyError
deriving DecidableEq

/-- Key lookup in a JSON object (`dict.get` without default); keys produced by
`json.load` are unique, so first match suffices. -/
def lookupJ (kvs : List (String × JSON)) (k : String) : Option JSON :=
  List.lookup k kvs

/-- Python `dict.get k` collapsing a stored json `null` to `None`, used where
the script only ever sees the Python value (absent key and `null` value are
both `None`). -/
def pyGet (kvs : List (String × JSON)) (k : String) : Option JSON :=
  match lookupJ kvs k with
  | some JSON.null => none
  | r => r

/-- Order-preserving dict assignment `d[k] = v`: update in place when the key
exists, append otherwise. -/
def insertPy {α : Type} (kvs : List (String × α)) (k : String) (v : α) :
    List (String × α) :=
  if kvs.any (fun p => p.1 = k) then
    kvs.map (fun p => if p.1 = k then (k, v) else p)
  else kvs ++ [(k, v)]

/-- Digit-string value, most significant first. -/
def digitsVal (cs : List Char) : Nat :=
  cs.foldl (fun n c => 10 * n + (c.toNat - 48)) 0

/-- Model of Python `float` applied to a string: strip surrounding whitespace,
optional sign, digits with at most one decimal point and at least one digit.
Returns `none` where Python raises `ValueError`. -/
def strToFloat (s : String) : Option ℚ :=
  let cs := s.trim.toList
  let signed : ℚ × List Char :=
    match cs with
    | c :: rest =>
      if c = Char.ofNat 43 then (1, rest)
      else if c = Char.ofNat 45 then (-1, rest)
      else (1, cs)
    | [] => (1, [])
  let intPart := signed.2.takeWhile Char.isDigit
  let rest := signed.2.dropWhile Char.isDigit
  match rest with
  | [] => if intPart.isEmpty then none else some (signed.1 * digitsVal intPart)
  | c :: frac =>
    if c = Char.ofNat 46 ∧ frac.all Char.isDigit ∧ (intPart ≠ [] ∨ frac ≠ []) then
      some (signed.1 * ((digitsVal intPart : ℚ) + (digitsVal frac : ℚ) / (10 : ℚ) ^ frac.length))
    else none

/-- Model of Python `float(x)` on a JSON value: numbers and booleans convert,
strings parse or raise `ValueError`, everything else raises `TypeError`. -/
def pyFloat : JSON → Except PyError ℚ
  | JSON.num q => Except.ok q
  | JSON.bool b => Except.ok (if b then 1 else 0)
  | JSON.str s =>
    match strToFloat s with
    | some q => Except.ok q
    | none => Except.error PyError.valueError
  | _ => Except.error PyError.typeError

/-- `BenchmarkResult` dataclass of the script.  `unit` keeps the JSON value the
script stores (the Rust parser stores whatever the `unit` field holds). -/
structure BenchmarkResult where
  name : String
  value : ℚ
  unit : JSON
  raw_value : Option JSON := none
deriving DecidableEq

/-- `ComparisonResult` dataclass of the script. -/
structure ComparisonResult where
  name : String
  baseline_value : ℚ
  latest_value : ℚ
  unit : JSON
  change_percent : ℚ
  is_regression : Bool
  is_improvement : Bool
deriving DecidableEq

/-- Combined outcome of `open(path)` + `json.load` on one path. -/
inductive FileRead where
  | notFound : FileRead
  | badJSON : FileRead
  | ok (j : JSON) : FileRead
deriving DecidableEq

/-- Value selected for one Rust benchmark entry:
`info.get("mean_ns", info.get("value", 0))`. -/
def rustSelectValue (ikvs : List (String × JSON)) : JSON :=
  (lookupJ ikvs "mean_ns").getD ((lookupJ ikvs "value").getD (JSON.num 0))

/-- One iteration of the `for name, info in benchmarks.items()` loop of
`parse_rust_results`: non-dict entries are skipped, `float(value)` may raise. -/
def rustStep (results : List (String × BenchmarkResult)) (item : String × JSON) :
    Except PyError (List (String × BenchmarkResult)) :=
  match item.2 with
  | JSON.obj ikvs =>
    (pyFloat (rustSelectValue ikvs)).map fun v =>
      insertPy results item.1
        { name := item.1
          value := v
          unit := (lookupJ ikvs "unit").getD (JSON.str "ns")
          raw_value := pyGet ikvs "value" }
  | _ => Except.ok results

/-- `parse_rust_results`: `FileNotFoundError` and `json.JSONDecodeError` are
caught (warning printed, empty dict returned); on a successfully decoded
document, `data.get("benchmarks", {})` raises `AttributeError` when the top
level is not an object, `.items()` raises when the `benchmarks` value is not
an object, and each entry goes through `rustStep`. -/
def parse_rust_results : FileRead → Except PyError (List (String × BenchmarkResult))
  | FileRead.notFound => Except.ok []
  | FileRead.badJSON => Except.ok []
  | FileRead.ok j =>
    match j with
    | JSON.obj kvs =>
      match (lookupJ kvs "benchmarks").getD (JSON.obj []) with
      | JSON.obj benchmarks => benchmarks.foldlM rustStep []
      | _ => Except.error PyError.attributeError
    | _ => Except.error PyError.attributeError

/-- One iteration of the `for name, info in tests.items()` loop of the JSON
branch of `parse_swift_results`. -/
def swiftJsonStep (results : List (String × BenchmarkResult)) (item : String × JSON) :
    Except PyError (List (String × BenchmarkResult)) :=
  match item.2 with
  | JSON.obj ikvs =>
    (pyFloat ((lookupJ ikvs "average_seconds").getD (JSON.num 0))).map fun v =>
      insertPy results item.1
        { name := item.1, value := v * 1000, unit := JSON.str "ms" }
  | _ => Except.ok results

/-- Body of the JSON branch of `parse_swift_results` once the sibling file has
been decoded. -/
def swiftJsonBody (j : JSON) : Except PyError (List (String × BenchmarkResult)) :=
  match j with
  | JSON.obj kvs =>
    match (lookupJ kvs "tests").getD (JSON.obj []) with
    | JSON.obj tests => tests.foldlM swiftJsonStep []
    | _ => Except.error PyError.attributeError
  | _ => Except.error PyError.attributeError

/-- The literal `measured` of the regex `measured.*average:\s+([0-9.]+)`. -/
def measuredPattern : List Char := "measured".toList

/-- The literal `average:` of the same regex. -/
def averagePattern : List Char := "average:".toList

/-- Does a numeric character class `[0-9.]` match. -/
def isNumDotChar (c : Char) : Bool := c.isDigit || c = Char.ofNat 46

/-- If `p` is a prefix of `s`, return what follows it. -/
def matchHead : List Char → List Char → Option (List Char)
  | [], s => some s
  | _ :: _, [] => none
  | p :: ps, c :: cs => if p = c then matchHead ps cs else none

/-- Match `\s+([0-9.]+)` at the start of `s` (both quantifiers effectively take
the maximal run: shortening the whitespace run cannot make the digit class
match).  Returns the captured group. -/
def numAfterWS (s : List Char) : Option String :=
  let ws := s.takeWhile Char.isWhitespace
  let rest := s.dropWhile Char.isWhitespace
  let num := rest.takeWhile isNumDotChar
  if ws.isEmpty ∨ num.isEmpty then none else some (String.mk num)

/-- Greedy `.*average:\s+([0-9.]+)`: the engine commits to the LAST occurrence
of `average:` whose tail matches, so later positions are preferred. -/
def findLastAverage : List Char → Option String
  | [] => none
  | c :: rest =>
    match findLastAverage rest with
    | some r => some r
    | none =>
      match matchHead averagePattern (c :: rest) with
      | some tail => numAfterWS tail
      | none => none

/-- `re.search(r"measured.*average:\s+([0-9.]+)", line)`: leftmost occurrence
of `measured` whose remainder matches, greedy `.*` inside. -/
def findMeasured : List Char → Option String
  | [] => none
  | c :: rest =>
    match matchHead measuredPattern (c :: rest) with
    | some tail =>
      match findLastAverage tail with
      | some r => some r
      | none => findMeasured rest
    | none => findMeasured rest

/-- `re.search(r"'([^']+)'", line)`: leftmost opening quote that is followed by
at least one non-quote character and then a closing quote; the greedy class
captures everything up to the next quote. -/
def findQuoted : List Char → Option String
  | [] => none
  | c :: rest =>
    if c = Char.ofNat 39 then
      let body := rest.takeWhile (fun d => ¬ d = Char.ofNat 39)
      let rest2 := rest.dropWhile (fun d => ¬ d = Char.ofNat 39)
      if rest2.isEmpty ∨ body.isEmpty then findQuoted rest
      else some (String.mk body)
    else findQuoted rest

/-- One line of the text-fallback loop of `parse_swift_results`: a name match
updates `current_test` first, then a measurement match (with a current name
set) records `value * 1000` under unit `ms`; `float` on the captured group can
raise `ValueError` (the group `[0-9.]+` may hold several dots). -/
def swiftLineStep (current : Option String) (results : List (String × BenchmarkResult))
    (line : String) :
    Except PyError (Option String × List (String × BenchmarkResult)) :=
  let current2 : Option String :=
    match findQuoted line.toList with
    | some t => some t
    | none => current
  match findMeasured line.toList, current2 with
  | some numStr, some name =>
    match strToFloat numStr with
    | some v =>
      Except.ok (current2, insertPy results name
        { name := name, value := v * 1000, unit := JSON.str "ms" })
    | none => Except.error PyError.valueError
  | _, _ => Except.ok (current2, results)

/-- The `for line in lines` loop of the text fallback, in file order. -/
def swiftTextScan : List String → Option String → List (String × BenchmarkResult) →
    Except PyError (List (String × BenchmarkResult))
  | [], _, results => Except.ok results
  | line :: rest, current, results =>
    match swiftLineStep current results line with
    | Except.ok p => swiftTextScan rest p.1 p.2
    | Except.error e => Except.error e

/-- Input of `parse_swift_results`: whether the `.json` sibling exists (and how
reading it goes), and whether the text file exists (`none`), raises
`FileNotFoundError` on open (`some none`) or yields content. -/
structure SwiftInput where
  jsonSibling : Option FileRead
  textFile : Option (Option String)

/-- Text-fallback branch of `parse_swift_results`: skipped when the path does
not exist; `FileNotFoundError` from `open` is caught (warning printed). -/
def swiftTextPath : Option (Option String) → Except PyError (List (String × BenchmarkResult))
  | none => Except.ok []
  | some none => Except.ok []
  | some (some content) => swiftTextScan (content.splitOn "\n") none []

/-- `parse_swift_results`: prefer the JSON sibling when it exists — a decode or
open failure there is caught and falls through to the text branch, but any
error past `json.load` propagates; otherwise scan the text report. -/
def parse_swift_results (inp : SwiftInput) : Except PyError (List (String × BenchmarkResult)) :=
  match inp.jsonSibling with
  | some (FileRead.ok j) => swiftJsonBody j
  | some FileRead.notFound => swiftTextPath inp.textFile
  | some FileRead.badJSON => swiftTextPath inp.textFile
  | none => swiftTextPath inp.textFile

/-- Python `sorted(set(names))`: the distinct names in ascending order
(`String` order in Lean, like in Python, is lexicographic by code point). -/
def pySortedSet (names : List String) : List String :=
  names.dedup.insertionSort (fun a b => a ≤ b)

/-- The record built for one shared benchmark name by `compare_results`. -/
def mkComparison (name : String) (base curr : BenchmarkResult) (threshold : ℚ) :
    ComparisonResult :=
  let change_percent : ℚ :=
    if base.value = 0 then 0 else ((curr.value - base.value) / base.value) * 100
  { name := name
    baseline_value := base.value
    latest_value := curr.value
    unit := base.unit
    change_percent := change_percent
    is_regression := decide (change_percent > threshold)
    is_improvement := decide (change_percent < -threshold) }

/-- `compare_results`: iterate the sorted union of the two key sets, skip names
missing on either side, and classify each shared name. -/
def compare_results (baseline latest : List (String × BenchmarkResult)) (threshold : ℚ) :
    List ComparisonResult :=
  (pySortedSet (baseline.map Prod.fst ++ latest.map Prod.fst)).filterMap fun name =>
    match List.lookup name baseline, List.lookup name latest with
    | some base, some curr => some (mkComparison name base curr threshold)
    | _, _ => none

/-- Python `round-half-even` of a rational, as used by `%.Nf` formatting. -/
def roundHalfEven (q : ℚ) : ℤ :=
  if q - ⌊q⌋ < 1 / 2 then ⌊q⌋
  else if 1 / 2 < q - ⌊q⌋ then ⌊q⌋ + 1
  else if ⌊q⌋ % 2 = 0 then ⌊q⌋ else ⌊q⌋ + 1

/-- Left-pad a digit string with zeros to `d` characters. -/
def padZeros (s : String) (d : Nat) : String :=
  String.mk (List.replicate (d - s.length) (Char.ofNat 48)) ++ s

/-- Render a signed integer `n` (the value scaled by `10 ^ d`) with `d` decimal
places; `negIn` carries the sign of the pre-rounding value so that a negative
value rounding to zero renders as `-0...`, as Python float formatting does. -/
def renderInt (d : Nat) (n : ℤ) (negIn : Bool) : String :=
  (if n < 0 ∨ (n = 0 ∧ negIn = true) then "-" else "") ++
    (if d = 0 then toString n.natAbs
     else toString (n.natAbs / 10 ^ d) ++ "." ++ padZeros (toString (n.natAbs % 10 ^ d)) d)

/-- Python `f"{q:.df}"` on an exact rational. -/
def renderFixed (d : Nat) (q : ℚ) : String :=
  renderInt d (roundHalfEven (q * 10 ^ d)) (decide (q < 0))

/-- `format_value`: scale by unit family and render with the branch's decimal
count. -/
def format_value (value : ℚ) (unit : String) : String :=
  if unit = "ns" then
    if value ≥ 1000000000 then renderFixed 2 (value / 1000000000) ++ "s"
    else if value ≥ 1000000 then renderFixed 2 (value / 1000000) ++ "ms"
    else if value ≥ 1000 then renderFixed 2 (value / 1000) ++ "us"
    else renderFixed 0 value ++ "ns"
  else if unit = "ms" then
    if value ≥ 1000 then renderFixed 2 (value / 1000) ++ "s"
    else renderFixed 2 value ++ "ms"
  else if unit = "s" then renderFixed 3 value ++ "s"
  else renderFixed 2 value ++ unit

/-- The branch data of `format_value`: decimal places, pre-rounding scaled
magnitude, and the unit suffix of the rendered string. -/
def format_value_parts (value : ℚ) (unit : String) : Nat × ℚ × String :=
  if unit = "ns" then
    if value ≥ 1000000000 then (2, value / 1000000000, "s")
    else if value ≥ 1000000 then (2, value / 1000000, "ms")
    else if value ≥ 1000 then (2, value / 1000, "us")
    else (0, value, "ns")
  else if unit = "ms" then
    if value ≥ 1000 then (2, value / 1000, "s")
    else (2, value, "ms")
  else if unit = "s" then (3, value, "s")
  else (2, value, unit)

/-- The rounded magnitude shown by `%.df` formatting, as a rational. -/
def fixedMag (d : Nat) (q : ℚ) : ℚ :=
  (roundHalfEven (q * 10 ^ d) : ℚ) / 10 ^ d

/-- The numeric magnitude appearing in `format_value`'s output. -/
def format_value_mag (value : ℚ) (unit : String) : ℚ :=
  fixedMag (format_value_parts value unit).1 (format_value_parts value unit).2.1

/-- The unit suffix appearing in `format_value`'s output. -/
def format_value_unit (value : ℚ) (unit : String) : String :=
  (format_value_parts value unit).2.2

/-- Flattened record of the structured (JSON) report. -/
structure ReportRecord where
  name : String
  baseline : ℚ
  current : ℚ
  unit : JSON
  change_percent : ℚ
  status : String
deriving DecidableEq

/-- Summary object of the structured report. -/
structure ReportSummary where
  total : Nat
  regressions : Nat
  improvements : Nat
deriving DecidableEq

/-- The structured report as a nested value (its `json.dumps` serialization is
not modelled). -/
structure JsonReport where
  generated : String
  metadata : List (String × JSON)
  summary : ReportSummary
  rust : List ReportRecord
  swift : List ReportRecord
deriving DecidableEq

/-- One flattened record of `generate_json_report`. -/
def reportRecord (c : ComparisonResult) : ReportRecord :=
  { name := c.name
    baseline := c.baseline_value
    current := c.latest_value
    unit := c.unit
    change_percent := c.change_percent
    status :=
      if c.is_regression then "regression"
      else if c.is_improvement then "improvement" else "unchanged" }

/-- `generate_json_report` (`datetime.now()` is passed in as `generated`). -/
def generate_json_report (rust_comparisons swift_comparisons : List ComparisonResult)
    (generated : String) (metadata : List (String × JSON)) : JsonReport :=
  { generated := generated
    metadata := metadata
    summary :=
      { total := rust_comparisons.length + swift_comparisons.length
        regressions :=
          (rust_comparisons ++ swift_comparisons).countP (fun c => c.is_regression)
        improvements :=
          (rust_comparisons ++ swift_comparisons).countP (fun c => c.is_improvement) }
    rust := rust_comparisons.map reportRecord
    swift := swift_comparisons.map reportRecord }

/-- Number of regressions in a comparison list
(`sum(1 for c in comparisons if c.is_regression)`). -/
def countRegressions (comparisons : List ComparisonResult) : Nat :=
  comparisons.countP (fun c => c.is_regression)

/-- Exit code of `main`, over the already-parsed result mappings: `1` when the
results directory is missing, `1` when both latest mappings are empty, `1`
when the comparisons contain a regression (checked after the report is
written; the write itself is assumed to succeed), `0` otherwise. -/
def mainExitCode (dirExists : Bool)
    (rust_latest rust_baseline swift_latest swift_baseline : List (String × BenchmarkResult))
    (threshold : ℚ) : Nat :=
  if dirExists = false then 1
  else if rust_latest.isEmpty ∧ swift_latest.isEmpty then 1
  else
    if 0 < countRegressions (compare_results rust_baseline rust_latest threshold) +
        countRegressions (compare_results swift_baseline swift_latest threshold)
    then 1 else 0

/-- Concrete benchmark record (baseline value 100 ns) used in witnesses. -/
def exB100 : BenchmarkResult := { name := "a", value := 100, unit := JSON.str "ns" }

/-- Concrete benchmark record (latest value 106 ns) used in witnesses. -/
def exB106 : BenchmarkResult := { name := "a", value := 106, unit := JSON.str "ns" }

/-- Concrete benchmark record with a zero baseline value. -/
def exBZ0 : BenchmarkResult := { name := "z", value := 0, unit := JSON.str "ns" }

/-- Concrete benchmark record paired against the zero baseline. -/
def exBZ50 : BenchmarkResult := { name := "z", value := 50, unit := JSON.str "ns" }

/-- Comparison record for 100 to 106 at threshold 5: a 6 percent regression. -/
def exR106 : ComparisonResult := ⟨"a", 100, 106, JSON.str "ns", 6, true, false⟩

/-- Comparison record for 100 to 100 at threshold 5: unchanged. -/
def exR0 : ComparisonResult := ⟨"a", 100, 100, JSON.str "ns", 0, false, false⟩

/-- Comparison record for 100 to 100 at threshold -5: both flags set. -/
def exRBoth : ComparisonResult := ⟨"a", 100, 100, JSON.str "ns", 0, true, true⟩

/-- A text line containing only a measurement, used in C5's witness. -/
def exMeasuredLine : String := "measured [Time, seconds] average: 0.0025"

/-- The spec's Swift text-fallback example input. -/
def swiftExampleText : String :=
  "Test Case 'foo_test' started.\nmeasured [Time, seconds] average: 0.0025, relative standard deviation: 1.5%"

/-! ### Helper lemmas -/

theorem lookup_isSome_iff {α : Type} (d : List (String × α)) (k : String) :
    (List.lookup k d).isSome = true ↔ k ∈ d.map Prod.fst := by
  induction d with
  | nil => simp
  | cons p rest ih =>
    obtain ⟨k2, v⟩ := p
    rcases h : (k == k2) with _ | _
    · have hne : ¬ k = k2 := by simpa using h
      simp [List.lookup, h, ih, hne]
    · have heq : k = k2 := by simpa using h
      simp [List.lookup, h, heq]

theorem mem_pySortedSet {a : String} {l : List String} : a ∈ pySortedSet l ↔ a ∈ l := by
  unfold pySortedSet
  rw [(List.perm_insertionSort _ _).mem_iff]
  exact List.mem_dedup

theorem nodup_pySortedSet (l : List String) : (pySortedSet l).Nodup :=
  (List.perm_insertionSort _ _).nodup_iff.mpr l.nodup_dedup

theorem sorted_le_pySortedSet (l : List String) :
    List.Sorted (· ≤ ·) (pySortedSet l) :=
  List.sorted_insertionSort _ _

theorem sorted_lt_pySortedSet (l : List String) :
    List.Sorted (· < ·) (pySortedSet l) :=
  (sorted_le_pySortedSet l).lt_of_le (nodup_pySortedSet l)

theorem mkComparison_change_percent (name : String) (base curr : BenchmarkResult) (T : ℚ) :
    (mkComparison name base curr T).change_percent =
      if base.value = 0 then 0 else ((curr.value - base.value) / base.value) * 100 := rfl

theorem mkComparison_is_regression (name : String) (base curr : BenchmarkResult) (T : ℚ) :
    (mkComparison name base curr T).is_regression =
      decide ((mkComparison name base curr T).change_percent > T) := rfl

theorem mkComparison_is_improvement (name : String) (base curr : BenchmarkResult) (T : ℚ) :
    (mkComparison name base curr T).is_improvement =
      decide ((mkComparison name base curr T).change_percent < -T) := rfl

theorem mkComparison_name (name : String) (base curr : BenchmarkResult) (T : ℚ) :
    (mkComparison name base curr T).name = name := rfl

theorem compare_results_map_name (baseline latest : List (String × BenchmarkResult)) (T : ℚ) :
    (compare_results baseline latest T).map (fun c => c.name) =
      (pySortedSet (baseline.map Prod.fst ++ latest.map Prod.fst)).filter
        (fun name => (List.lookup name baseline).isSome && (List.lookup name latest).isSome) := by
  unfold compare_results
  generalize pySortedSet (baseline.map Prod.fst ++ latest.map Prod.fst) = ns
  induction ns with
  | nil => rfl
  | cons n rest ih =>
    rw [List.filterMap_cons, List.filter_cons]
    cases hb : List.lookup n baseline with
    | none => simpa [hb] using ih
    | some base =>
      cases hl : List.lookup n latest with
      | none => simpa [hb, hl] using ih
      | some curr => simpa [hb, hl, mkComparison_name] using ih

theorem mem_compare_results {baseline latest : List (String × BenchmarkResult)} {T : ℚ}
    {r : ComparisonResult} (hr : r ∈ compare_results baseline latest T) :
    ∃ name base curr, List.lookup name baseline = some base ∧
      List.lookup name latest = some curr ∧ r = mkComparison name base curr T := by
  unfold compare_results at hr
  obtain ⟨name, _, hf⟩ := List.mem_filterMap.mp hr
  cases hb : List.lookup name baseline with
  | none => rw [hb] at hf; simp at hf
  | some base =>
    cases hl : List.lookup name latest with
    | none => rw [hb, hl] at hf; simp at hf
    | some curr =>
      rw [hb, hl] at hf
      simp only [Option.some.injEq] at hf
      exact ⟨name, base, curr, hb, hl, hf.symm⟩

/-! ### Claim theorems -/

/-- C1: every record produced by `compare_results` under a threshold `T ≥ 0` is
classified REGRESSION exactly when its `change_percent` exceeds `T`,
IMPROVEMENT exactly when it is below `-T`, and UNCHANGED otherwise; the
classifications are mutually exclusive, and a change exactly equal to `T` or
`-T` is UNCHANGED because both comparisons are strict. -/
theorem compare_results_classification
    (baseline latest : List (String × BenchmarkResult)) (T : ℚ) (hT : 0 ≤ T)
    (r : ComparisonResult) (hr : r ∈ compare_results baseline latest T) :
    (r.is_regression = true ↔ r.change_percent > T) ∧
    (r.is_improvement = true ↔ r.change_percent < -T) ∧
    ¬(r.is_regression = true ∧ r.is_improvement = true) ∧
    ((r.is_regression = false ∧ r.is_improvement = false) ↔
      -T ≤ r.change_percent ∧ r.change_percent ≤ T) ∧
    ((r.change_percent = T ∨ r.change_percent = -T) →
      r.is_regression = false ∧ r.is_improvement = false) := by
  obtain ⟨name, base, curr, hb, hl, rfl⟩ := mem_compare_results hr
  rw [mkComparison_is_regression, mkComparison_is_improvement]
  refine ⟨by simp, by simp, ?_, ?_, ?_⟩
  · simp only [decide_eq_true_eq]
    rintro ⟨h1, h2⟩
    linarith
  · simp only [decide_eq_false_iff_not, not_lt]
    constructor
    · rintro ⟨h1, h2⟩; exact ⟨h2, h1⟩
    · rintro ⟨h1, h2⟩; exact ⟨h2, h1⟩
  · intro h
    simp only [decide_eq_false_iff_not, not_lt]
    rcases h with h | h
    · constructor <;> [linarith; linarith]
    · constructor <;> [linarith; linarith]

/-- Witness for C1 at baseline a=100, latest a=106, threshold 5. -/
theorem compare_results_classification_witness :
    (exR106.is_regression = true ↔ exR106.change_percent > 5) ∧
    ¬(exR106.is_regression = true ∧ exR106.is_improvement = true) := by
  have hmem : exR106 ∈ compare_results [("a", exB100)] [("a", exB106)] 5 := by
    have e : compare_results [("a", exB100)] [("a", exB106)] 5 = [exR106] := by
      with_unfolding_all rfl
    rw [e]; exact List.mem_singleton_self exR106
  have h := compare_results_classification [("a", exB100)] [("a", exB106)] 5
    (by norm_num) exR106 hmem
  exact ⟨h.1, h.2.2.1⟩

/-- C2: for a name present in both mappings, the produced record's
`change_percent` is exactly 0 when the baseline value is 0 (regardless of the
latest value), else `((latest - baseline) / baseline) * 100`. -/
theorem compare_results_change_percent
    (baseline latest : List (String × BenchmarkResult)) (T : ℚ) (name : String)
    (base curr : BenchmarkResult)
    (hb : List.lookup name baseline = some base) (hl : List.lookup name latest = some curr) :
    ∃ r ∈ compare_results baseline latest T, r.name = name ∧
      (base.value = 0 → r.change_percent = 0) ∧
      (¬ base.value = 0 →
        r.change_percent = ((curr.value - base.value) / base.value) * 100) := by
  refine ⟨mkComparison name base curr T, ?_, mkComparison_name name base curr T, ?_, ?_⟩
  · unfold compare_results
    apply List.mem_filterMap.mpr
    refine ⟨name, ?_, ?_⟩
    · apply mem_pySortedSet.mpr
      apply List.mem_append_left
      exact (lookup_isSome_iff baseline name).mp (by rw [hb]; rfl)
    · rw [hb, hl]
  · intro h; rw [mkComparison_change_percent, if_pos h]
  · intro h; rw [mkComparison_change_percent, if_neg h]

/-- Witness for C2 at a zero baseline value. -/
theorem compare_results_change_percent_witness :
    ∃ r ∈ compare_results [("z", exBZ0)] [("z", exBZ50)] 5, r.name = "z" ∧
      (exBZ0.value = 0 → r.change_percent = 0) ∧
      (¬ exBZ0.value = 0 →
        r.change_percent = ((exBZ50.value - exBZ0.value) / exBZ0.value) * 100) :=
  compare_results_change_percent [("z", exBZ0)] [("z", exBZ50)] 5 "z" exBZ0 exBZ50 rfl rfl

/-- C3: the records produced by `compare_results` are exactly one per name in
the key intersection of the two mappings, listed in strictly ascending
(lexicographic) name order; names on only one side never appear. -/
theorem compare_results_names_sorted
    (baseline latest : List (String × BenchmarkResult)) (T : ℚ) :
    List.Sorted (· < ·) ((compare_results baseline latest T).map (fun c => c.name)) ∧
    (∀ name, name ∈ (compare_results baseline latest T).map (fun c => c.name) ↔
      (name ∈ baseline.map Prod.fst ∧ name ∈ latest.map Prod.fst)) := by
  rw [compare_results_map_name]
  constructor
  · exact (sorted_lt_pySortedSet _).filter _
  · intro name
    rw [List.mem_filter, mem_pySortedSet, List.mem_append]
    rw [Bool.and_eq_true, lookup_isSome_iff, lookup_isSome_iff]
    constructor
    · rintro ⟨_, h⟩; exact h
    · rintro ⟨h1, h2⟩; exact ⟨Or.inl h1, h1, h2⟩

/-- C10: with a threshold `T ≥ 0` the two classification booleans are mutually
exclusive, but with a negative threshold (here -5, at change 0) a single
record carries both `is_regression` and `is_improvement`. -/
theorem classification_flags_threshold_sign :
    (∀ (baseline latest : List (String × BenchmarkResult)) (T : ℚ) (r : ComparisonResult),
      0 ≤ T → r ∈ compare_results baseline latest T →
      ¬(r.is_regression = true ∧ r.is_improvement = true)) ∧
    ∃ r ∈ compare_results [("a", exB100)] [("a", exB100)] (-5 : ℚ),
      r.is_regression = true ∧ r.is_improvement = true := by
  constructor
  · intro baseline latest T r hT hr
    obtain ⟨name, base, curr, hb, hl, rfl⟩ := mem_compare_results hr
    rw [mkComparison_is_regression, mkComparison_is_improvement]
    simp only [decide_eq_true_eq]
    rintro ⟨h1, h2⟩
    linarith
  · refine ⟨exRBoth, ?_, rfl, rfl⟩
    have e : compare_results [("a", exB100)] [("a", exB100)] (-5 : ℚ) = [exRBoth] := by
      with_unfolding_all rfl
    rw [e]; exact List.mem_singleton_self exRBoth

/-- C4 counterexample: on the well-formed JSON document `[]` (a top-level
array), `parse_rust_results` raises an uncaught `AttributeError` from
`data.get` instead of returning an empty mapping, so the parsers are not total
on every input. -/
theorem parsers_total_counterexample :
    parse_rust_results (FileRead.ok (JSON.arr [])) = Except.error PyError.attributeError := rfl

/-- C4 amended: the parsers never raise on the two failure classes they catch,
unparseable JSON and a missing file: `parse_rust_results` returns the empty
mapping there (with a warning), and `parse_swift_results` falls back to the
text branch when the JSON sibling fails to decode or open, itself returning
the empty mapping when the text file is missing. -/
theorem parsers_recover_on_unparseable :
    parse_rust_results FileRead.notFound = Except.ok [] ∧
    parse_rust_results FileRead.badJSON = Except.ok [] ∧
    (∀ tf, parse_swift_results ⟨some FileRead.notFound, tf⟩ = swiftTextPath tf) ∧
    (∀ tf, parse_swift_results ⟨some FileRead.badJSON, tf⟩ = swiftTextPath tf) ∧
    parse_swift_results ⟨none, none⟩ = Except.ok [] ∧
    parse_swift_results ⟨none, some none⟩ = Except.ok [] :=
  ⟨rfl, rfl, fun _ => rfl, fun _ => rfl, rfl, rfl⟩

/-- C5: in the Swift text fallback, lines are scanned in file order; a line
matching the quoted-identifier pattern sets the current test name, a
measurement line with a current name set records the captured number times
1000 under unit `ms` against the most recent name, a measurement line before
any name line is ignored, and the spec's example input yields
`foo_test` with value 2.5 ms. -/
theorem parse_swift_text_fallback :
    (∀ (cur : Option String) (res : List (String × BenchmarkResult)) (line : String)
      (t : String), findQuoted line.toList = some t → findMeasured line.toList = none →
      swiftLineStep cur res line = Except.ok (some t, res)) ∧
    (∀ (cur : Option String) (res : List (String × BenchmarkResult)) (line : String),
      findQuoted line.toList = none → findMeasured line.toList = none →
      swiftLineStep cur res line = Except.ok (cur, res)) ∧
    (∀ (res : List (String × BenchmarkResult)) (line numStr name : String) (v : ℚ),
      findQuoted line.toList = none → findMeasured line.toList = some numStr →
      strToFloat numStr = some v →
      swiftLineStep (some name) res line =
        Except.ok (some name, insertPy res name ⟨name, v * 1000, JSON.str "ms", none⟩)) ∧
    (∀ (res : List (String × BenchmarkResult)) (line numStr : String),
      findQuoted line.toList = none → findMeasured line.toList = some numStr →
      swiftLineStep none res line = Except.ok (none, res)) ∧
    (∀ (line : String) (rest : List String) (cur : Option String)
      (res : List (String × BenchmarkResult)) (p : Option String × List (String × BenchmarkResult)),
      swiftLineStep cur res line = Except.ok p →
      swiftTextScan (line :: rest) cur res = swiftTextScan rest p.1 p.2) ∧
    parse_swift_results ⟨none, some (some swiftExampleText)⟩ =
      Except.ok [("foo_test", ⟨"foo_test", 5 / 2, JSON.str "ms", none⟩)] := by
  refine ⟨?_, ?_, ?_, ?_, ?_, ?_⟩
  · intro cur res line t h1 h2
    simp only [String.toList] at h1 h2
    simp [swiftLineStep, h1, h2]
  · intro cur res line h1 h2
    simp only [String.toList] at h1 h2
    simp [swiftLineStep, h1, h2]
  · intro res line numStr name v h1 h2 h3
    simp only [String.toList] at h1 h2
    simp [swiftLineStep, h1, h2, h3]
  · intro res line numStr h1 h2
    simp only [String.toList] at h1 h2
    simp [swiftLineStep, h1, h2]
  · intro line rest cur res p h
    simp [swiftTextScan, h]
  · with_unfolding_all rfl

/-- Witness for C5's measurement-line case at a concrete line. -/
theorem parse_swift_text_fallback_witness :
    swiftLineStep (some "t") [] exMeasuredLine =
      Except.ok (some "t", insertPy [] "t" ⟨"t", (1 / 400 : ℚ) * 1000, JSON.str "ms", none⟩) :=
  parse_swift_text_fallback.2.2.1 [] exMeasuredLine "0.0025" "t" (1 / 400)
    (by with_unfolding_all rfl) (by with_unfolding_all rfl) (by with_unfolding_all rfl)

/-- C6: a dict-valued Rust entry takes its value from `mean_ns`, else from
`value`, else 0; its unit from the `unit` field defaulting to `ns`; its
`raw_value` from the original `value` field (`None` when absent); and the
spec's example entry yields value 250, unit `ns`, raw value `None`. -/
theorem parse_rust_field_selection :
    (∀ (ikvs : List (String × JSON)) (j : JSON),
      lookupJ ikvs "mean_ns" = some j → rustSelectValue ikvs = j) ∧
    (∀ (ikvs : List (String × JSON)) (j : JSON),
      lookupJ ikvs "mean_ns" = none → lookupJ ikvs "value" = some j →
      rustSelectValue ikvs = j) ∧
    (∀ ikvs : List (String × JSON),
      lookupJ ikvs "mean_ns" = none → lookupJ ikvs "value" = none →
      rustSelectValue ikvs = JSON.num 0) ∧
    (∀ (results : List (String × BenchmarkResult)) (name : String)
      (ikvs : List (String × JSON)) (v : ℚ),
      pyFloat (rustSelectValue ikvs) = Except.ok v →
      rustStep results (name, JSON.obj ikvs) = Except.ok (insertPy results name
        ⟨name, v, (lookupJ ikvs "unit").getD (JSON.str "ns"), pyGet ikvs "value"⟩)) ∧
    (∀ ikvs : List (String × JSON),
      lookupJ ikvs "value" = none → pyGet ikvs "value" = none) ∧
    parse_rust_results (FileRead.ok (JSON.obj [("benchmarks", JSON.obj
      [("x", JSON.obj [("mean_ns", JSON.num 250), ("unit", JSON.str "ns")])])])) =
      Except.ok [("x", ⟨"x", 250, JSON.str "ns", none⟩)] := by
  refine ⟨?_, ?_, ?_, ?_, ?_, ?_⟩
  · intro ikvs j h
    simp [rustSelectValue, h]
  · intro ikvs j h1 h2
    simp [rustSelectValue, h1, h2]
  · intro ikvs h1 h2
    simp [rustSelectValue, h1, h2]
  · intro results name ikvs v h
    simp [rustStep, h, Except.map]
  · intro ikvs h
    simp [pyGet, h]
  · with_unfolding_all rfl

/-- Witness for C6's `mean_ns` selection at a concrete entry. -/
theorem parse_rust_field_selection_witness :
    rustSelectValue [("mean_ns", JSON.num 250)] = JSON.num 250 :=
  parse_rust_field_selection.1 [("mean_ns", JSON.num 250)] (JSON.num 250) rfl

/-- C7 counterexample: with the results directory present, a non-empty Rust
baseline mapping, both latest mappings empty and no regression anywhere,
`main` exits 1 even though one source did yield records — the no-data check
looks only at the latest mappings. -/
theorem main_exit_counterexample :
    mainExitCode true [] [("a", exB100)] [] [] 5 = 1 ∧
    [("a", exB100)] ≠ [] ∧
    countRegressions (compare_results [("a", exB100)] [] 5) +
      countRegressions (compare_results [] [] 5) = 0 := by
  refine ⟨?_, ?_, ?_⟩
  · with_unfolding_all rfl
  · simp
  · with_unfolding_all rfl

/-- C7 amended: `main` exits zero iff the results directory exists, at least
one source's LATEST mapping is non-empty (the baselines are not consulted by
the no-data check), and the comparisons contain no regression; it exits 1 in
every other case. -/
theorem main_exit_contract (dirExists : Bool)
    (rl rb sl sb : List (String × BenchmarkResult)) (T : ℚ) :
    mainExitCode dirExists rl rb sl sb T = 0 ↔
      (dirExists = true ∧ ¬(rl.isEmpty = true ∧ sl.isEmpty = true) ∧
        countRegressions (compare_results rb rl T) +
          countRegressions (compare_results sb sl T) = 0) := by
  cases dirExists with
  | false => simp [mainExitCode]
  | true =>
    unfold mainExitCode
    rw [if_neg (by simp)]
    split_ifs with h2 h3
    · simp [h2]
    · constructor
      · intro h; exact h.elim
      · rintro ⟨_, _, hsum⟩; omega
    · constructor
      · intro _; exact ⟨rfl, h2, by omega⟩
      · intro _; trivial

/-- C8: the summary object of the structured report has `total` equal to the
combined number of records, and `regressions`/`improvements` equal to the
number of records carrying the corresponding flag — reading the summary back
equals counting classifications directly over the same records. -/
theorem generate_json_report_summary (rust swift : List ComparisonResult)
    (generated : String) (metadata : List (String × JSON)) :
    (generate_json_report rust swift generated metadata).summary.total =
      (rust ++ swift).length ∧
    (generate_json_report rust swift generated metadata).summary.regressions =
      ((rust ++ swift).filter (fun c => c.is_regression)).length ∧
    (generate_json_report rust swift generated metadata).summary.improvements =
      ((rust ++ swift).filter (fun c => c.is_improvement)).length := by
  refine ⟨?_, ?_, ?_⟩
  · simp [generate_json_report]
  · simp [generate_json_report, List.countP_eq_length_filter]
  · simp [generate_json_report, List.countP_eq_length_filter]

theorem roundHalfEven_intCast (n : ℤ) : roundHalfEven ((n : ℚ)) = n := by
  unfold roundHalfEven
  rw [Int.floor_intCast, sub_self, if_pos (by norm_num : (0 : ℚ) < 1 / 2)]

theorem fixedMag_mul (d : Nat) (q : ℚ) :
    fixedMag d q * 10 ^ d = ((roundHalfEven (q * 10 ^ d) : ℤ) : ℚ) := by
  unfold fixedMag
  rw [div_mul_cancel₀ _ (by positivity : ((10 : ℚ) ^ d) ≠ 0)]

theorem renderInt_flag_irrel (d : Nat) (n : ℤ) (b1 b2 : Bool) (hn : ¬ n = 0) :
    renderInt d n b1 = renderInt d n b2 := by
  unfold renderInt
  have h1 : (n < 0 ∨ (n = 0 ∧ b1 = true)) ↔ n < 0 := by
    constructor
    · rintro (h | ⟨h, _⟩)
      · exact h
      · exact absurd h hn
    · exact Or.inl
  have h2 : (n < 0 ∨ (n = 0 ∧ b2 = true)) ↔ n < 0 := by
    constructor
    · rintro (h | ⟨h, _⟩)
      · exact h
      · exact absurd h hn
    · exact Or.inl
  by_cases hlt : n < 0
  · rw [if_pos (h1.mpr hlt), if_pos (h2.mpr hlt)]
  · rw [if_neg (fun hc => hlt (h1.mp hc)), if_neg (fun hc => hlt (h2.mp hc))]

theorem renderFixed_fixedMag (d : Nat) (q : ℚ) (h : fixedMag d q = 0 → 0 ≤ q) :
    renderFixed d (fixedMag d q) = renderFixed d q := by
  unfold renderFixed
  rw [fixedMag_mul, roundHalfEven_intCast]
  rcases eq_or_ne (roundHalfEven (q * 10 ^ d)) 0 with heq | hne
  · have hm : fixedMag d q = 0 := by
      unfold fixedMag; rw [heq]; simp
    have hq : 0 ≤ q := h hm
    have e1 : decide (fixedMag d q < 0) = false := by simp [hm]
    have e2 : decide (q < 0) = false := by simp [not_lt.mpr hq]
    rw [e1, e2]
  · exact renderInt_flag_irrel d _ _ _ hne

theorem format_value_eq_parts (v : ℚ) (u : String) :
    format_value v u =
      renderFixed (format_value_parts v u).1 (format_value_parts v u).2.1 ++
        (format_value_parts v u).2.2 := by
  unfold format_value format_value_parts
  split_ifs <;> rfl

/-- C9 amended: re-formatting the output magnitude at the output unit
reproduces the same rendered string except when the output unit is `s` while
the input unit was not (`%.2f` versus `%.3f`), or when rounding lands the
output magnitude exactly on the next promotion threshold (1000 for `ns` or
`ms` output); a negative value whose rendering rounds to `-0` is excluded
because the exact-rational model cannot carry the float negative zero that
Python re-formats. -/
theorem format_value_reformat (v : ℚ) (u : String)
    (h1 : format_value_unit v u = "s" → u = "s")
    (h2 : format_value_unit v u = "ns" → format_value_mag v u < 1000)
    (h3 : format_value_unit v u = "ms" → format_value_mag v u < 1000)
    (h4 : format_value_mag v u = 0 → 0 ≤ v) :
    format_value (format_value_mag v u) (format_value_unit v u) = format_value v u := by
  by_cases hns : u = "ns"
  · subst hns
    by_cases hv1 : v ≥ 1000000000
    · have hp : format_value_parts v "ns" = (2, v / 1000000000, "s") := by
        simp [format_value_parts, hv1]
      have hunit : format_value_unit v "ns" = "s" := by simp [format_value_unit, hp]
      exact absurd (h1 hunit) (by simp)
    · by_cases hv2 : v ≥ 1000000
      · have hp : format_value_parts v "ns" = (2, v / 1000000, "ms") := by
          simp [format_value_parts, hv1, hv2]
        have hunit : format_value_unit v "ns" = "ms" := by simp [format_value_unit, hp]
        have hmag : format_value_mag v "ns" = fixedMag 2 (v / 1000000) := by
          simp [format_value_mag, hp]
        have hlt : fixedMag 2 (v / 1000000) < 1000 := by rw [← hmag]; exact h3 hunit
        have hrhs : format_value v "ns" = renderFixed 2 (v / 1000000) ++ "ms" := by
          rw [format_value_eq_parts v "ns", hp]
        have hlhs : format_value (fixedMag 2 (v / 1000000)) "ms" =
            renderFixed 2 (fixedMag 2 (v / 1000000)) ++ "ms" := by
          simp [format_value, not_le.mpr hlt]
        rw [hunit, hmag, hrhs, hlhs]
        rw [renderFixed_fixedMag 2 (v / 1000000)
          (fun _ => div_nonneg (by linarith) (by norm_num))]
      · by_cases hv3 : v ≥ 1000
        · have hp : format_value_parts v "ns" = (2, v / 1000, "us") := by
            simp [format_value_parts, hv1, hv2, hv3]
          have hunit : format_value_unit v "ns" = "us" := by simp [format_value_unit, hp]
          have hmag : format_value_mag v "ns" = fixedMag 2 (v / 1000) := by
            simp [format_value_mag, hp]
          have hrhs : format_value v "ns" = renderFixed 2 (v / 1000) ++ "us" := by
            rw [format_value_eq_parts v "ns", hp]
          have hlhs : format_value (fixedMag 2 (v / 1000)) "us" =
              renderFixed 2 (fixedMag 2 (v / 1000)) ++ "us" := by
            simp [format_value]
          rw [hunit, hmag, hrhs, hlhs]
          rw [renderFixed_fixedMag 2 (v / 1000)
            (fun _ => div_nonneg (by linarith) (by norm_num))]
        · have hp : format_value_parts v "ns" = (0, v, "ns") := by
            simp [format_value_parts, hv1, hv2, hv3]
          have hunit : format_value_unit v "ns" = "ns" := by simp [format_value_unit, hp]
          have hmag : format_value_mag v "ns" = fixedMag 0 v := by
            simp [format_value_mag, hp]
          have hlt : fixedMag 0 v < 1000 := by rw [← hmag]; exact h2 hunit
          have c1 : ¬(fixedMag 0 v ≥ 1000000000) := by push_neg; linarith
          have c2 : ¬(fixedMag 0 v ≥ 1000000) := by push_neg; linarith
          have c3 : ¬(fixedMag 0 v ≥ 1000) := by push_neg; linarith
          have hrhs : format_value v "ns" = renderFixed 0 v ++ "ns" := by
            rw [format_value_eq_parts v "ns", hp]
          have hlhs : format_value (fixedMag 0 v) "ns" =
              renderFixed 0 (fixedMag 0 v) ++ "ns" := by
            simp [format_value, c1, c2, c3]
          rw [hunit, hmag, hrhs, hlhs]
          rw [renderFixed_fixedMag 0 v (fun hz => h4 (by rw [hmag]; exact hz))]
  · by_cases hms : u = "ms"
    · subst hms
      by_cases hv1 : v ≥ 1000
      · have hp : format_value_parts v "ms" = (2, v / 1000, "s") := by
          simp [format_value_parts, hv1]
        have hunit : format_value_unit v "ms" = "s" := by simp [format_value_unit, hp]
        exact absurd (h1 hunit) (by simp)
      · have hp : format_value_parts v "ms" = (2, v, "ms") := by
          simp [format_value_parts, hv1]
        have hunit : format_value_unit v "ms" = "ms" := by simp [format_value_unit, hp]
        have hmag : format_value_mag v "ms" = fixedMag 2 v := by
          simp [format_value_mag, hp]
        have hlt : fixedMag 2 v < 1000 := by rw [← hmag]; exact h3 hunit
        have hrhs : format_value v "ms" = renderFixed 2 v ++ "ms" := by
          rw [format_value_eq_parts v "ms", hp]
        have hlhs : format_value (fixedMag 2 v) "ms" =
            renderFixed 2 (fixedMag 2 v) ++ "ms" := by
          simp [format_value, not_le.mpr hlt]
        rw [hunit, hmag, hrhs, hlhs]
        rw [renderFixed_fixedMag 2 v (fun hz => h4 (by rw [hmag]; exact hz))]
    · by_cases hs : u = "s"
      · subst hs
        have hp : format_value_parts v "s" = (3, v, "s") := by
          simp [format_value_parts]
        have hunit : format_value_unit v "s" = "s" := by simp [format_value_unit, hp]
        have hmag : format_value_mag v "s" = fixedMag 3 v := by
          simp [format_value_mag, hp]
        have hrhs : format_value v "s" = renderFixed 3 v ++ "s" := by
          rw [format_value_eq_parts v "s", hp]
        have hlhs : format_value (fixedMag 3 v) "s" =
            renderFixed 3 (fixedMag 3 v) ++ "s" := by
          simp [format_value]
        rw [hunit, hmag, hrhs, hlhs]
        rw [renderFixed_fixedMag 3 v (fun hz => h4 (by rw [hmag]; exact hz))]
      · have hp : format_value_parts v u = (2, v, u) := by
          simp [format_value_parts, hns, hms, hs]
        have hunit : format_value_unit v u = u := by simp [format_value_unit, hp]
        have hmag : format_value_mag v u = fixedMag 2 v := by
          simp [format_value_mag, hp]
        have hrhs : format_value v u = renderFixed 2 v ++ u := by
          rw [format_value_eq_parts v u, hp]
        have hlhs : format_value (fixedMag 2 v) u =
            renderFixed 2 (fixedMag 2 v) ++ u := by
          simp [format_value, hns, hms, hs]
        rw [hunit, hmag, hrhs, hlhs]
        rw [renderFixed_fixedMag 2 v (fun hz => h4 (by rw [hmag]; exact hz))]

/-- Witness for C9's amended statement at 1500 ns (rendered "1.50us"). -/
theorem format_value_reformat_witness :
    format_value (format_value_mag 1500 "ns") (format_value_unit 1500 "ns") =
      format_value 1500 "ns" :=
  format_value_reformat 1500 "ns" (by with_unfolding_all decide)
    (by with_unfolding_all decide) (by with_unfolding_all decide)
    (by with_unfolding_all decide)

/-- C9 counterexample: formatting 2e9 ns yields "2.00s" with magnitude 2 and
unit "s"; re-formatting 2 at unit "s" yields "2.000s" (three decimals), a
different string, so the formatter is not idempotent as claimed. -/
theorem format_value_reformat_counterexample :
    format_value_mag 2000000000 "ns" = 2 ∧
    format_value_unit 2000000000 "ns" = "s" ∧
    format_value 2000000000 "ns" = "2.00s" ∧
    format_value (format_value_mag 2000000000 "ns") (format_value_unit 2000000000 "ns") =
      "2.000s" ∧
    ¬(format_value (format_value_mag 2000000000 "ns") (format_value_unit 2000000000 "ns") =
        format_value 2000000000 "ns") := by
  refine ⟨by with_unfolding_all rfl, by with_unfolding_all rfl, by with_unfolding_all rfl,
    by with_unfolding_all rfl, ?_⟩
  with_unfolding_all decide

/-- Witness for C10's universal part at threshold 5. -/
theorem classification_flags_threshold_sign_witness :
    ¬(exR0.is_regression = true ∧ exR0.is_improvement = true) :=
  classification_flags_threshold_sign.1 [("a", exB100)] [("a", exB100)] 5 exR0
    (by norm_num) (by
      have e : compare_results [("a", exB100)] [("a", exB100)] 5 = [exR0] := by
        with_unfolding_all rfl
      rw [e]; exact List.mem_singleton_self exR0)

end CompareBenchmarks
